import Mathlib

/-!
Shallow embedding of the sketchup-mcp example scripts and smoke test.

Each Python script is modelled as a function from its inputs — the
connection flag, the JSON-decoding behaviour of `json.loads` (abstracted
as a function `String → Option Json`, `none` meaning a `JSONDecodeError`),
and the stream of response strings returned by the remote `eval_ruby`
call — to a `Run`: the list of observable events (remote calls, log
lines, prints) together with the exception, if any, escaping the script.
-/

namespace SketchupMCP

/-- A parsed JSON document, as produced by Python's `json.loads`
(numbers restricted to integers). -/
inductive Json where
  | null : Json
  | bool (b : Bool) : Json
  | num (n : Int) : Json
  | str (s : String) : Json
  | arr (elems : List Json) : Json
  | obj (fields : List (String × Json)) : Json


/-- The Python exceptions that can arise in the scripts' result-inspection
code. -/
inductive PyExc where
  | jsonDecodeError : PyExc
  | attributeError : PyExc
  | typeError : PyExc
  | keyError : PyExc
  deriving DecidableEq

/-- Value of a key in a parsed JSON object (first binding wins; `json.loads`
produces unique keys). -/
def lookupField (kvs : List (String × Json)) (k : String) : Option Json :=
  (kvs.find? (fun kv => kv.1 == k)).map (fun kv => kv.2)

/-- Python truthiness of a parsed JSON value. -/
def truthy : Json → Bool
  | .null => false
  | .bool b => b
  | .num n => n != 0
  | .str s => s != ""
  | .arr elems => !elems.isEmpty
  | .obj fields => !fields.isEmpty

/-- Python truthiness of a value that may be `None`. -/
def truthyOpt : Option Json → Bool
  | none => false
  | some v => truthy v

/-- Python `d.get(k)`: `None` when the key is missing, `AttributeError`
when the receiver is not a dict. -/
def pyGet : Json → String → Except PyExc (Option Json)
  | .obj kvs, k => .ok (lookupField kvs k)
  | _, _ => .error .attributeError

/-- Python `d.get(k, default)`. -/
def pyGetDefault : Json → String → Json → Except PyExc Json
  | .obj kvs, k, d => .ok ((lookupField kvs k).getD d)
  | _, _, _ => .error .attributeError

/-- Python `d[k]` with a string key: `KeyError` when missing, `TypeError`
when the receiver is not a dict. -/
def pyIndex : Json → String → Except PyExc Json
  | .obj kvs, k =>
      match lookupField kvs k with
      | some v => .ok v
      | none => .error .keyError
  | _, _ => .error .typeError

/-- Python iteration `for x in v`: lists yield elements, strings yield
characters, dicts yield keys, everything else raises `TypeError`. -/
def pyIter : Json → Except PyExc (List Json)
  | .arr elems => .ok elems
  | .str s => .ok (s.data.map (fun c => .str (String.mk [c])))
  | .obj kvs => .ok (kvs.map (fun kv => .str kv.1))
  | _ => .error .typeError

/-- Python `d.items()`. -/
def pyItems : Json → Except PyExc (List (String × Json))
  | .obj kvs => .ok kvs
  | _ => .error .attributeError

/-- Python `json.loads(v)` applied to a value obtained from a dict:
only a string is decoded; anything else raises `TypeError`. -/
def pyJsonLoads (loads : String → Option Json) : Option Json → Except PyExc Json
  | some (.str s) =>
      match loads s with
      | some v => .ok v
      | none => .error .jsonDecodeError
  | _ => .error .typeError

/-- A logged or printed message: a plain string, or an f-string embedding
a Python value, an exception, or a `json.dumps` rendering. -/
inductive Msg where
  | lit (s : String) : Msg
  | withVal (txt : String) (v : Option Json) : Msg
  | withExc (txt : String) (e : PyExc) : Msg
  | withDumps (txt : String) (v : Json) (indent : Nat) : Msg


/-- An observable event of a script run. -/
inductive Event where
  | call (op : String) (requestId : Option Nat) (code : String) : Event
  | info (m : Msg) : Event
  | error (m : Msg) : Event
  | print (m : Msg) : Event


/-- The outcome of running a script: the events it emitted, and the
exception (if any) that escaped it. -/
structure Run where
  events : List Event
  exc : Option PyExc


/-- The operation names of the remote calls in a trace. -/
def callOps (events : List Event) : List String :=
  events.filterMap (fun e =>
    match e with
    | .call op _ _ => some op
    | _ => none)

/-- The code payloads of the remote calls in a trace. -/
def payloads (events : List Event) : List String :=
  events.filterMap (fun e =>
    match e with
    | .call _ _ code => some code
    | _ => none)

/-- The full remote-call records (operation, request id, payload) of a
trace. -/
def callRecords (events : List Event) : List (String × Option Nat × String) :=
  events.filterMap (fun e =>
    match e with
    | .call op rid code => some (op, rid, code)
    | _ => none)

/-- Python `"-" * n`. -/
def dashLine (n : Nat) : String := String.mk (List.replicate n '-')

/-- Python `"=" * n`. -/
def equalsLine (n : Nat) : String := String.mk (List.replicate n '=')


def CUBE_CODE : String :=
  "\n" ++
  "model = Sketchup.active_model\n" ++
  "entities = model.active_entities\n" ++
  "\n" ++
  "# Start an operation for undo\n" ++
  "model.start_operation(\"Create Test Cube\", true)\n" ++
  "\n" ++
  "# Create a group for the cube\n" ++
  "group = entities.add_group\n" ++
  "\n" ++
  "# Create the bottom face\n" ++
  "face = group.entities.add_face(\n" ++
  "  [0, 0, 0],\n" ++
  "  [10, 0, 0],\n" ++
  "  [10, 10, 0],\n" ++
  "  [0, 10, 0]\n" ++
  ")\n" ++
  "\n" ++
  "# Push/pull to create the cube\n" ++
  "face.pushpull(10)\n" ++
  "\n" ++
  "# End the operation\n" ++
  "model.commit_operation\n" ++
  "\n" ++
  "# Return the group ID\n" ++
  "group.entityID.to_s\n"

def testCase0Code : String :=
  "\n" ++
  "            model = Sketchup.active_model\n" ++
  "            entities = model.active_entities\n" ++
  "            \"Success: Basic model access works\"\n" ++
  "        "

def testCase1Code : String :=
  "\n" ++
  "            model = Sketchup.active_model\n" ++
  "            entities = model.active_entities\n" ++
  "            group = entities.add_group\n" ++
  "            group.entityID.to_s\n" ++
  "        "

def testCase2Code : String :=
  "\n" ++
  "            model = Sketchup.active_model\n" ++
  "            entities = model.active_entities\n" ++
  "            group = entities.add_group\n" ++
  "            face = group.entities.add_face(\n" ++
  "                [0, 0, 0],\n" ++
  "                [10, 0, 0],\n" ++
  "                [10, 10, 0],\n" ++
  "                [0, 10, 0]\n" ++
  "            )\n" ++
  "            face.pushpull(10)\n" ++
  "            \"Success: Created face and pushpull\"\n" ++
  "        "

def testCase3Code : String :=
  "\n" ++
  "            model = Sketchup.active_model\n" ++
  "            definition = model.definitions.add(\"Test Component\")\n" ++
  "            definition.name\n" ++
  "        "

def testCase4Code : String :=
  "\n" ++
  "            model = Sketchup.active_model\n" ++
  "            definition = model.definitions.add(\"Test Component\")\n" ++
  "            # Get behavior properties\n" ++
  "            behavior = definition.behavior\n" ++
  "            \n" ++
  "            # Test available methods\n" ++
  "            methods = behavior.methods - Object.methods\n" ++
  "            \n" ++
  "            # Return the available methods\n" ++
  "            methods.sort.join(\", \")\n" ++
  "        "

def testCase5Code : String :=
  "\n" ++
  "            model = Sketchup.active_model\n" ++
  "            entities = model.active_entities\n" ++
  "            definition = model.definitions.add(\"Test Component\")\n" ++
  "            \n" ++
  "            # Create a point and transformation\n" ++
  "            point = Geom::Point3d.new(0, 0, 0)\n" ++
  "            transform = Geom::Transformation.new(point)\n" ++
  "            \n" ++
  "            # Add instance\n" ++
  "            instance = entities.add_instance(definition, transform)\n" ++
  "            \n" ++
  "            # Set behavior properties\n" ++
  "            behavior = instance.definition.behavior\n" ++
  "            behavior.snapto = 0\n" ++
  "            \n" ++
  "            \"Success: Component instance created with behavior set\"\n" ++
  "        "

def TEST_CASES : List (String × String) :=
  [("Basic Model Access", testCase0Code),
   ("Create Group", testCase1Code),
   ("Create Face and Pushpull", testCase2Code),
   ("Component Definition", testCase3Code),
   ("Component Behavior", testCase4Code),
   ("Component Instance", testCase5Code)]

def example0Code : String :=
  "\n" ++
  "            model = Sketchup.active_model\n" ++
  "            entities = model.active_entities\n" ++
  "            line = entities.add_line([0,0,0], [100,100,100])\n" ++
  "            line.entityID\n" ++
  "        "

def example1Code : String :=
  "\n" ++
  "            model = Sketchup.active_model\n" ++
  "            entities = model.active_entities\n" ++
  "            group = entities.add_group\n" ++
  "            face = group.entities.add_face(\n" ++
  "                [0, 0, 0],\n" ++
  "                [10, 0, 0],\n" ++
  "                [10, 10, 0],\n" ++
  "                [0, 10, 0]\n" ++
  "            )\n" ++
  "            face.pushpull(10)\n" ++
  "            group.entityID\n" ++
  "        "

def example2Code : String :=
  "\n" ++
  "            model = Sketchup.active_model\n" ++
  "            info = \x7b\n" ++
  "                \"filename\": model.path,\n" ++
  "                \"title\": model.title,\n" ++
  "                \"description\": model.description,\n" ++
  "                \"entity_count\": model.entities.size,\n" ++
  "                \"selection_count\": model.selection.size\n" ++
  "            \x7d\n" ++
  "            info.to_json\n" ++
  "        "

def EXAMPLES : List (String × String) :=
  [("Create a line", example0Code),
   ("Create a cube", example1Code),
   ("Get model information", example2Code)]

def BEHAVIOR_TEST_CODE : String :=
  "\n" ++
  "# Create a new model context\n" ++
  "model = Sketchup.active_model\n" ++
  "model.start_operation(\"Test Component Behavior\", true)\n" ++
  "\n" ++
  "# Create a new component definition\n" ++
  "definition = model.definitions.add(\"Test Component\")\n" ++
  "\n" ++
  "# Get the behavior object\n" ++
  "behavior = definition.behavior\n" ++
  "\n" ++
  "# Get all methods available on the behavior object\n" ++
  "all_methods = behavior.methods - Object.methods\n" ++
  "\n" ++
  "# Test setting various behavior properties\n" ++
  "results = \x7b\x7d\n" ++
  "\n" ++
  "# Test common behavior properties\n" ++
  "properties_to_test = [\n" ++
  "  \"snapto\",\n" ++
  "  \"cuts_opening\",\n" ++
  "  \"always_face_camera\",\n" ++
  "  \"no_scale_tool\",\n" ++
  "  \"shadows_face_sun\",\n" ++
  "  \"is_component\",\n" ++
  "  \"component?\"\n" ++
  "]\n" ++
  "\n" ++
  "# Test each property\n" ++
  "property_results = \x7b\x7d\n" ++
  "for prop in properties_to_test\n" ++
  "  begin\n" ++
  "    # Try to get the property\n" ++
  "    if behavior.respond_to?(prop)\n" ++
  "      property_results[prop] = \x7b\n" ++
  "        \"exists\": true,\n" ++
  "        \"readable\": true\n" ++
  "      \x7d\n" ++
  "      \n" ++
  "      # Try to set the property (for boolean properties, try setting to true)\n" ++
  "      setter_method = prop + \"=\"\n" ++
  "      if behavior.respond_to?(setter_method)\n" ++
  "        if prop == \"snapto\"\n" ++
  "          behavior.send(setter_method, 0)\n" ++
  "        else\n" ++
  "          behavior.send(setter_method, true)\n" ++
  "        end\n" ++
  "        property_results[prop][\"writable\"] = true\n" ++
  "      else\n" ++
  "        property_results[prop][\"writable\"] = false\n" ++
  "      end\n" ++
  "    else\n" ++
  "      property_results[prop] = \x7b\n" ++
  "        \"exists\": false\n" ++
  "      \x7d\n" ++
  "    end\n" ++
  "  rescue => e\n" ++
  "    property_results[prop] = \x7b\n" ++
  "      \"exists\": true,\n" ++
  "      \"error\": e.message\n" ++
  "    \x7d\n" ++
  "  end\n" ++
  "end\n" ++
  "\n" ++
  "# End the operation\n" ++
  "model.commit_operation\n" ++
  "\n" ++
  "# Return the results\n" ++
  "\x7b\n" ++
  "  \"all_methods\": all_methods.sort,\n" ++
  "  \"property_results\": property_results\n" ++
  "\x7d.to_json\n"

def CABINET_RUBY_CODE : String :=
  "\n" ++
  "# Arts and Crafts Cabinet with Working Doors\n" ++
  "# This script creates a stylish arts and crafts style cabinet with working doors\n" ++
  "# that can be opened and closed using SketchUp\x27s component functionality\n" ++
  "\n" ++
  "def create_arts_and_crafts_cabinet\n" ++
  "  # Get the active model and start an operation for undo purposes\n" ++
  "  model = Sketchup.active_model\n" ++
  "  model.start_operation(\"Create Arts and Crafts Cabinet\", true)\n" ++
  "  \n" ++
  "  # Define cabinet dimensions (in inches)\n" ++
  "  width = 36\n" ++
  "  depth = 18\n" ++
  "  height = 72\n" ++
  "  thickness = 0.75\n" ++
  "  \n" ++
  "  # Create a new component definition for the cabinet\n" ++
  "  cabinet_def = model.definitions.add(\"Arts and Crafts Cabinet\")\n" ++
  "  entities = cabinet_def.entities\n" ++
  "  \n" ++
  "  # Create the main cabinet box\n" ++
  "  create_cabinet_box(entities, width, depth, height, thickness)\n" ++
  "  \n" ++
  "  # Add shelves\n" ++
  "  shelf_positions = [height/3, 2*height/3]\n" ++
  "  create_shelves(entities, width, depth, thickness, shelf_positions)\n" ++
  "  \n" ++
  "  # Create doors (as nested components that can swing open)\n" ++
  "  create_doors(entities, width, depth, height, thickness)\n" ++
  "  \n" ++
  "  # Add decorative elements typical of arts and crafts style\n" ++
  "  add_decorative_elements(entities, width, depth, height, thickness)\n" ++
  "  \n" ++
  "  # Place the component in the model\n" ++
  "  point = Geom::Point3d.new(0, 0, 0)\n" ++
  "  transform = Geom::Transformation.new(point)\n" ++
  "  instance = model.active_entities.add_instance(cabinet_def, transform)\n" ++
  "  \n" ++
  "  # End the operation\n" ++
  "  model.commit_operation\n" ++
  "  \n" ++
  "  # Return the component instance ID\n" ++
  "  return instance.entityID\n" ++
  "end\n" ++
  "\n" ++
  "def create_cabinet_box(entities, width, depth, height, thickness)\n" ++
  "  # Bottom\n" ++
  "  bottom_points = [\n" ++
  "    [0, 0, 0], \n" ++
  "    [width, 0, 0], \n" ++
  "    [width, depth, 0], \n" ++
  "    [0, depth, 0]\n" ++
  "  ]\n" ++
  "  bottom_face = entities.add_face(bottom_points)\n" ++
  "  bottom_face.pushpull(-thickness)\n" ++
  "  \n" ++
  "  # Back\n" ++
  "  back_points = [\n" ++
  "    [0, depth, 0], \n" ++
  "    [width, depth, 0], \n" ++
  "    [width, depth, height], \n" ++
  "    [0, depth, height]\n" ++
  "  ]\n" ++
  "  back_face = entities.add_face(back_points)\n" ++
  "  back_face.pushpull(-thickness)\n" ++
  "  \n" ++
  "  # Left side\n" ++
  "  left_points = [\n" ++
  "    [0, 0, 0], \n" ++
  "    [0, depth, 0], \n" ++
  "    [0, depth, height], \n" ++
  "    [0, 0, height]\n" ++
  "  ]\n" ++
  "  left_face = entities.add_face(left_points)\n" ++
  "  left_face.pushpull(-thickness)\n" ++
  "  \n" ++
  "  # Right side\n" ++
  "  right_points = [\n" ++
  "    [width, 0, 0], \n" ++
  "    [width, depth, 0], \n" ++
  "    [width, depth, height], \n" ++
  "    [width, 0, height]\n" ++
  "  ]\n" ++
  "  right_face = entities.add_face(right_points)\n" ++
  "  right_face.pushpull(thickness)\n" ++
  "  \n" ++
  "  # Top\n" ++
  "  top_points = [\n" ++
  "    [0, 0, height], \n" ++
  "    [width, 0, height], \n" ++
  "    [width, depth, height], \n" ++
  "    [0, depth, height]\n" ++
  "  ]\n" ++
  "  top_face = entities.add_face(top_points)\n" ++
  "  top_face.pushpull(thickness)\n" ++
  "end\n" ++
  "\n" ++
  "def create_shelves(entities, width, depth, thickness, positions)\n" ++
  "  positions.each do |z_pos|\n" ++
  "    shelf_points = [\n" ++
  "      [thickness, thickness, z_pos], \n" ++
  "      [width - thickness, thickness, z_pos], \n" ++
  "      [width - thickness, depth - thickness, z_pos], \n" ++
  "      [thickness, depth - thickness, z_pos]\n" ++
  "    ]\n" ++
  "    shelf_face = entities.add_face(shelf_points)\n" ++
  "    shelf_face.pushpull(-thickness)\n" ++
  "  end\n" ++
  "end\n" ++
  "\n" ++
  "def create_doors(entities, width, depth, height, thickness)\n" ++
  "  # Define door dimensions\n" ++
  "  door_width = (width - thickness) / 2\n" ++
  "  door_height = height - 2 * thickness\n" ++
  "  \n" ++
  "  # Create left door as a component (so it can be animated)\n" ++
  "  left_door_def = Sketchup.active_model.definitions.add(\"Left Cabinet Door\")\n" ++
  "  \n" ++
  "  # Create the door geometry in the component\n" ++
  "  door_entities = left_door_def.entities\n" ++
  "  left_door_points = [\n" ++
  "    [0, 0, 0], \n" ++
  "    [door_width, 0, 0], \n" ++
  "    [door_width, thickness, 0], \n" ++
  "    [0, thickness, 0]\n" ++
  "  ]\n" ++
  "  left_door_face = door_entities.add_face(left_door_points)\n" ++
  "  left_door_face.pushpull(door_height)\n" ++
  "  \n" ++
  "  # Add door details\n" ++
  "  add_door_details(door_entities, door_width, thickness, door_height)\n" ++
  "  \n" ++
  "  # Place the left door component\n" ++
  "  left_hinge_point = Geom::Point3d.new(thickness, thickness, thickness)\n" ++
  "  left_transform = Geom::Transformation.new(left_hinge_point)\n" ++
  "  left_door_instance = entities.add_instance(left_door_def, left_transform)\n" ++
  "  \n" ++
  "  # Set the hinge axis for animation - using correct method for SketchUp 2025\n" ++
  "  # The component behavior is already set by default\n" ++
  "  left_door_instance.definition.behavior.snapto = 0 # No automatic snapping\n" ++
  "  \n" ++
  "  # Create right door (similar process)\n" ++
  "  right_door_def = Sketchup.active_model.definitions.add(\"Right Cabinet Door\")\n" ++
  "  \n" ++
  "  door_entities = right_door_def.entities\n" ++
  "  right_door_points = [\n" ++
  "    [0, 0, 0], \n" ++
  "    [door_width, 0, 0], \n" ++
  "    [door_width, thickness, 0], \n" ++
  "    [0, thickness, 0]\n" ++
  "  ]\n" ++
  "  right_door_face = door_entities.add_face(right_door_points)\n" ++
  "  right_door_face.pushpull(door_height)\n" ++
  "  \n" ++
  "  # Add door details\n" ++
  "  add_door_details(door_entities, door_width, thickness, door_height)\n" ++
  "  \n" ++
  "  # Place the right door component\n" ++
  "  right_hinge_point = Geom::Point3d.new(width - thickness, thickness, thickness)\n" ++
  "  right_transform = Geom::Transformation.new(right_hinge_point)\n" ++
  "  right_door_instance = entities.add_instance(right_door_def, right_transform)\n" ++
  "  \n" ++
  "  # Set the hinge axis for animation (flipped compared to left door)\n" ++
  "  # The component behavior is already set by default\n" ++
  "  right_door_instance.definition.behavior.snapto = 0\n" ++
  "end\n" ++
  "\n" ++
  "def add_door_details(entities, width, thickness, height)\n" ++
  "  # Add a decorative panel that\x27s inset\n" ++
  "  inset = thickness / 2\n" ++
  "  panel_points = [\n" ++
  "    [inset, -thickness/2, inset], \n" ++
  "    [width - inset, -thickness/2, inset], \n" ++
  "    [width - inset, -thickness/2, height - inset], \n" ++
  "    [inset, -thickness/2, height - inset]\n" ++
  "  ]\n" ++
  "  panel = entities.add_face(panel_points)\n" ++
  "  panel.pushpull(-thickness/4)\n" ++
  "  \n" ++
  "  # Add a small handle\n" ++
  "  handle_position = [width - 2 * inset, -thickness * 1.5, height / 2]\n" ++
  "  handle_size = height / 20\n" ++
  "  \n" ++
  "  # Create a cylinder for the handle\n" ++
  "  handle_circle = entities.add_circle(handle_position, [0, 1, 0], handle_size, 12)\n" ++
  "  handle_face = entities.add_face(handle_circle)\n" ++
  "  handle_face.pushpull(-thickness)\n" ++
  "end\n" ++
  "\n" ++
  "def add_decorative_elements(entities, width, depth, height, thickness)\n" ++
  "  # Add characteristic arts and crafts style base\n" ++
  "  base_height = 4\n" ++
  "  \n" ++
  "  # Create a slightly wider base\n" ++
  "  base_extension = 1\n" ++
  "  base_points = [\n" ++
  "    [-base_extension, -base_extension, 0], \n" ++
  "    [width + base_extension, -base_extension, 0], \n" ++
  "    [width + base_extension, depth + base_extension, 0], \n" ++
  "    [-base_extension, depth + base_extension, 0]\n" ++
  "  ]\n" ++
  "  base_face = entities.add_face(base_points)\n" ++
  "  base_face.pushpull(-base_height)\n" ++
  "  \n" ++
  "  # Add corbels in the arts and crafts style\n" ++
  "  add_corbels(entities, width, depth, height, thickness)\n" ++
  "  \n" ++
  "  # Add crown detail at the top\n" ++
  "  add_crown(entities, width, depth, height, thickness)\n" ++
  "end\n" ++
  "\n" ++
  "def add_corbels(entities, width, depth, height, thickness)\n" ++
  "  # Add decorative corbels under the top\n" ++
  "  corbel_height = 3\n" ++
  "  corbel_depth = 2\n" ++
  "  \n" ++
  "  # Left front corbel\n" ++
  "  left_corbel_points = [\n" ++
  "    [thickness * 2, thickness, height - thickness - corbel_height],\n" ++
  "    [thickness * 2 + corbel_depth, thickness, height - thickness - corbel_height],\n" ++
  "    [thickness * 2 + corbel_depth, thickness, height - thickness],\n" ++
  "    [thickness * 2, thickness, height - thickness]\n" ++
  "  ]\n" ++
  "  left_corbel = entities.add_face(left_corbel_points)\n" ++
  "  left_corbel.pushpull(-thickness)\n" ++
  "  \n" ++
  "  # Right front corbel\n" ++
  "  right_corbel_points = [\n" ++
  "    [width - thickness * 2 - corbel_depth, thickness, height - thickness - corbel_height],\n" ++
  "    [width - thickness * 2, thickness, height - thickness - corbel_height],\n" ++
  "    [width - thickness * 2, thickness, height - thickness],\n" ++
  "    [width - thickness * 2 - corbel_depth, thickness, height - thickness]\n" ++
  "  ]\n" ++
  "  right_corbel = entities.add_face(right_corbel_points)\n" ++
  "  right_corbel.pushpull(-thickness)\n" ++
  "end\n" ++
  "\n" ++
  "def add_crown(entities, width, depth, height, thickness)\n" ++
  "  # Add a simple crown molding at the top\n" ++
  "  crown_height = 2\n" ++
  "  crown_extension = 1.5\n" ++
  "  \n" ++
  "  crown_points = [\n" ++
  "    [-crown_extension, -crown_extension, height + thickness],\n" ++
  "    [width + crown_extension, -crown_extension, height + thickness],\n" ++
  "    [width + crown_extension, depth + crown_extension, height + thickness],\n" ++
  "    [-crown_extension, depth + crown_extension, height + thickness]\n" ++
  "  ]\n" ++
  "  crown_face = entities.add_face(crown_points)\n" ++
  "  crown_face.pushpull(crown_height)\n" ++
  "  \n" ++
  "  # Add a slight taper to the crown\n" ++
  "  taper_points = [\n" ++
  "    [-crown_extension/2, -crown_extension/2, height + thickness + crown_height],\n" ++
  "    [width + crown_extension/2, -crown_extension/2, height + thickness + crown_height],\n" ++
  "    [width + crown_extension/2, depth + crown_extension/2, height + thickness + crown_height],\n" ++
  "    [-crown_extension/2, depth + crown_extension/2, height + thickness + crown_height]\n" ++
  "  ]\n" ++
  "  taper_face = entities.add_face(taper_points)\n" ++
  "  taper_face.pushpull(crown_height/2)\n" ++
  "end\n" ++
  "\n" ++
  "# Execute the function to create the cabinet\n" ++
  "create_arts_and_crafts_cabinet\n"

def test_code : String :=
  "\n" ++
  "model = Sketchup.active_model\n" ++
  "entities = model.active_entities\n" ++
  "line = entities.add_line([0,0,0], [100,100,100])\n" ++
  "puts \"Created line with ID: #\x7bline.entityID\x7d\"\n" ++
  "line.entityID\n"

/-- The connection-failure log message shared by the example scripts. -/
def connectFailMsg : String := "Failed to connect to the SketchUp MCP server."

/-- The connection-success log message shared by the example scripts. -/
def connectOkMsg : String := "Connected to SketchUp MCP server."

/-- The try/except block of `simple_test.main` (lines 63-70): parse the
response, log the result or error field, catch only `JSONDecodeError`. -/
def simpleTestHandle (loads : String → Option Json) (response : String) :
    List Event × Option PyExc :=
  match loads response with
  | none => ([.error (.lit ("Failed to parse response: " ++ response))], none)
  | some result =>
    match pyGet result "success" with
    | .error e => ([], some e)
    | .ok s =>
      if truthyOpt s then
        match pyGet result "result" with
        | .error e => ([], some e)
        | .ok r => ([.info (.withVal "Cube created successfully! Group ID: " r)], none)
      else
        match pyGet result "error" with
        | .error e => ([], some e)
        | .ok r => ([.error (.withVal "Failed to create cube: " r)], none)

/-- `simple_test.main`: connect, send `CUBE_CODE`, inspect the response. -/
def simpleTestMain (connected : Bool) (loads : String → Option Json)
    (responses : Nat → String) : Run :=
  if !connected then
    { events := [.error (.lit connectFailMsg)], exc := none }
  else
    let preEvents : List Event :=
      [.info (.lit connectOkMsg),
       .info (.lit "Creating a simple cube..."),
       .call "eval_ruby" none CUBE_CODE]
    match simpleTestHandle loads (responses 0) with
    | (evs, some e) => { events := preEvents ++ evs, exc := some e }
    | (evs, none) =>
        { events := preEvents ++ evs ++ [.info (.lit "Test completed.")], exc := none }

/-- The try/except block of `arts_and_crafts_cabinet.main` (lines 302-309). -/
def artsAndCraftsHandle (loads : String → Option Json) (response : String) :
    List Event × Option PyExc :=
  match loads response with
  | none => ([.error (.lit ("Failed to parse response: " ++ response))], none)
  | some result =>
    match pyGet result "success" with
    | .error e => ([], some e)
    | .ok s =>
      if truthyOpt s then
        match pyGet result "result" with
        | .error e => ([], some e)
        | .ok r => ([.info (.withVal "Cabinet created successfully! Result: " r)], none)
      else
        match pyGet result "error" with
        | .error e => ([], some e)
        | .ok r => ([.error (.withVal "Failed to create cabinet: " r)], none)

/-- `arts_and_crafts_cabinet.main`: connect, send `CABINET_RUBY_CODE`,
inspect the response. -/
def artsAndCraftsMain (connected : Bool) (loads : String → Option Json)
    (responses : Nat → String) : Run :=
  if !connected then
    { events := [.error (.lit connectFailMsg)], exc := none }
  else
    let preEvents : List Event :=
      [.info (.lit connectOkMsg),
       .info (.lit "Creating arts and crafts cabinet..."),
       .call "eval_ruby" none CABINET_RUBY_CODE]
    match artsAndCraftsHandle loads (responses 0) with
    | (evs, some e) => { events := preEvents ++ evs, exc := some e }
    | (evs, none) =>
        { events := preEvents ++ evs ++ [.info (.lit "Example completed.")], exc := none }

/-- `ruby_tester.test_ruby_code`: log the test name, send the code, parse
the response and report success as a boolean. -/
def testRubyCode (loads : String → Option Json) (testName code response : String) :
    List Event × Except PyExc Bool :=
  let preEvents : List Event :=
    [.info (.lit ("Testing: " ++ testName)), .call "eval_ruby" none code]
  match loads response with
  | none =>
      (preEvents ++ [.error (.lit ("Failed to parse response: " ++ response))], .ok false)
  | some result =>
    match pyGet result "success" with
    | .error e => (preEvents, .error e)
    | .ok s =>
      if truthyOpt s then
        match pyGet result "result" with
        | .error e => (preEvents, .error e)
        | .ok r => (preEvents ++ [.info (.withVal "✅ SUCCESS: " r)], .ok true)
      else
        match pyGet result "error" with
        | .error e => (preEvents, .error e)
        | .ok r => (preEvents ++ [.error (.withVal "❌ ERROR: " r)], .ok false)

/-- The `for test_case in TEST_CASES` loop of `ruby_tester.main`, threading
the response index and the running success count. -/
def rubyTesterLoop (loads : String → Option Json) (responses : Nat → String) :
    List (String × String) → Nat → Nat → List Event × Except PyExc Nat
  | [], _, count => ([], .ok count)
  | tc :: rest, i, count =>
    match testRubyCode loads tc.1 tc.2 (responses i) with
    | (evs, .error e) => (evs, .error e)
    | (evs, .ok passed) =>
      let next := rubyTesterLoop loads responses rest (i + 1) (if passed then count + 1 else count)
      (evs ++ [.info (.lit (dashLine 50))] ++ next.1, next.2)

/-- `ruby_tester.main`: connect, run the six test cases, log the summary. -/
def rubyTesterMain (connected : Bool) (loads : String → Option Json)
    (responses : Nat → String) : Run :=
  if !connected then
    { events := [.error (.lit connectFailMsg)], exc := none }
  else
    let preEvents : List Event :=
      [.info (.lit connectOkMsg), .info (.lit (equalsLine 50))]
    match rubyTesterLoop loads responses TEST_CASES 0 0 with
    | (evs, .error e) => { events := preEvents ++ evs, exc := some e }
    | (evs, .ok successCount) =>
        { events := preEvents ++ evs ++
            [.info (.lit ("Testing complete: " ++ toString successCount ++ "/" ++
              toString TEST_CASES.length ++ " tests passed"))],
          exc := none }

/-- One iteration of the `for example in EXAMPLES` loop of
`simple_ruby_eval.main` (lines 74-90). -/
def simpleRubyEvalStep (loads : String → Option Json) (exName code response : String) :
    List Event × Option PyExc :=
  let preEvents : List Event :=
    [.info (.lit ("Running example: " ++ exName)), .call "eval_ruby" none code]
  match loads response with
  | none =>
      (preEvents ++ [.error (.lit ("Failed to parse response: " ++ response)),
        .info (.lit (dashLine 40))], none)
  | some result =>
    match pyGet result "success" with
    | .error e => (preEvents, some e)
    | .ok s =>
      if truthyOpt s then
        match pyGet result "result" with
        | .error e => (preEvents, some e)
        | .ok r =>
            (preEvents ++ [.info (.withVal "Result: " r), .info (.lit (dashLine 40))], none)
      else
        match pyGet result "error" with
        | .error e => (preEvents, some e)
        | .ok r =>
            (preEvents ++ [.error (.withVal "Error: " r), .info (.lit (dashLine 40))], none)

/-- The `for example in EXAMPLES` loop of `simple_ruby_eval.main`. -/
def simpleRubyEvalLoop (loads : String → Option Json) (responses : Nat → String) :
    List (String × String) → Nat → List Event × Option PyExc
  | [], _ => ([], none)
  | ex :: rest, i =>
    match simpleRubyEvalStep loads ex.1 ex.2 (responses i) with
    | (evs, some e) => (evs, some e)
    | (evs, none) =>
      let next := simpleRubyEvalLoop loads responses rest (i + 1)
      (evs ++ next.1, next.2)

/-- `simple_ruby_eval.main`: connect, run the three examples, log completion. -/
def simpleRubyEvalMain (connected : Bool) (loads : String → Option Json)
    (responses : Nat → String) : Run :=
  if !connected then
    { events := [.error (.lit connectFailMsg)], exc := none }
  else
    let preEvents : List Event := [.info (.lit connectOkMsg)]
    match simpleRubyEvalLoop loads responses EXAMPLES 0 with
    | (evs, some e) => { events := preEvents ++ evs, exc := some e }
    | (evs, none) =>
        { events := preEvents ++ evs ++ [.info (.lit "All examples completed.")], exc := none }

/-- The body of the innermost `if prop_result.get("exists")` block of
`behavior_tester.main` for one `(prop, prop_result)` pair. -/
def displayProp (prop : String) (propResult : Json) : List Event × Option PyExc :=
  match pyGet propResult "exists" with
  | .error e => ([], some e)
  | .ok ex =>
    if truthyOpt ex then
      match pyGetDefault propResult "readable" (.bool false) with
      | .error e => ([], some e)
      | .ok readable =>
        match pyGetDefault propResult "writable" (.bool false) with
        | .error e => ([], some e)
        | .ok writable =>
          match pyGet propResult "error" with
          | .error e => ([], some e)
          | .ok err =>
            let status := (if truthy readable then ["readable"] else []) ++
                          (if truthy writable then ["writable"] else [])
            if truthyOpt err then
              ([.info (.withVal ("  - " ++ prop ++ ": EXISTS but ERROR: ") err)], none)
            else
              ([.info (.lit ("  - " ++ prop ++ ": EXISTS (" ++
                String.intercalate ", " status ++ ")"))], none)
    else
      ([.info (.lit ("  - " ++ prop ++ ": DOES NOT EXIST"))], none)

/-- The `for prop, prop_result in behavior_data["property_results"].items()`
loop of `behavior_tester.main`. -/
def displayProps : List (String × Json) → List Event × Option PyExc
  | [] => ([], none)
  | (prop, propResult) :: rest =>
    match displayProp prop propResult with
    | (evs, some e) => (evs, some e)
    | (evs, none) =>
      let next := displayProps rest
      (evs ++ next.1, next.2)

/-- The success branch of `behavior_tester.main` displaying the parsed
behavior data (methods, then property results). -/
def displayBehavior (behaviorData : Json) : List Event × Option PyExc :=
  let hdr : Event := .info (.lit "Available methods on Behavior object:")
  match pyIndex behaviorData "all_methods" with
  | .error e => ([hdr], some e)
  | .ok methods =>
    match pyIter methods with
    | .error e => ([hdr], some e)
    | .ok ms =>
      let methodEvents := ms.map (fun m => Event.info (.withVal "  - " (some m)))
      let hdr2 : Event := .info (.lit "\nProperty test results:")
      match pyIndex behaviorData "property_results" with
      | .error e => ([hdr] ++ methodEvents ++ [hdr2], some e)
      | .ok pr =>
        match pyItems pr with
        | .error e => ([hdr] ++ methodEvents ++ [hdr2], some e)
        | .ok items =>
          let next := displayProps items
          ([hdr] ++ methodEvents ++ [hdr2] ++ next.1, next.2)

/-- The body of the `try` block of `behavior_tester.main` (lines 109-141):
outer parse, success check, inner parse of the "result" field, display. -/
def behaviorTry (loads : String → Option Json) (response : String) :
    List Event × Option PyExc :=
  match loads response with
  | none => ([], some .jsonDecodeError)
  | some result =>
    match pyGet result "success" with
    | .error e => ([], some e)
    | .ok s =>
      if truthyOpt s then
        match pyGet result "result" with
        | .error e => ([], some e)
        | .ok r =>
          match pyJsonLoads loads r with
          | .error e => ([], some e)
          | .ok behaviorData => displayBehavior behaviorData
      else
        match pyGet result "error" with
        | .error e => ([], some e)
        | .ok r => ([.error (.withVal "Error: " r)], none)

/-- `behavior_tester.main`: connect, send `BEHAVIOR_TEST_CODE`, run the
try block; its `except json.JSONDecodeError` handler catches a decode
error raised anywhere inside the try block. -/
def behaviorTesterMain (connected : Bool) (loads : String → Option Json)
    (responses : Nat → String) : Run :=
  if !connected then
    { events := [.error (.lit connectFailMsg)], exc := none }
  else
    let preEvents : List Event :=
      [.info (.lit connectOkMsg),
       .info (.lit "Testing component behavior methods..."),
       .call "eval_ruby" none BEHAVIOR_TEST_CODE]
    match behaviorTry loads (responses 0) with
    | (evs, some .jsonDecodeError) =>
        { events := preEvents ++ evs ++
            [.error (.withExc "Failed to parse response: " .jsonDecodeError),
             .info (.lit "Testing completed.")],
          exc := none }
    | (evs, some e) => { events := preEvents ++ evs, exc := some e }
    | (evs, none) =>
        { events := preEvents ++ evs ++ [.info (.lit "Testing completed.")], exc := none }

/-- The mock context of `test_eval_ruby.py`, with default request id 1. -/
structure MockContext where
  request_id : Nat := 1

/-- `test_eval_ruby.py`: call `sketchup_mcp.server.eval_ruby` once with a
fresh `MockContext` and the canned line-creation script, print the raw
result, then parse it with `json.loads` (no handler) and print the parsed
value re-serialized with indent 2. -/
def smokeTest (loads : String → Option Json) (evalResult : String) : Run :=
  let ctx : MockContext := {}
  let preEvents : List Event :=
    [.call "eval_ruby" (some ctx.request_id) test_code,
     .print (.lit ("Result: " ++ evalResult))]
  match loads evalResult with
  | none => { events := preEvents, exc := some .jsonDecodeError }
  | some parsed =>
      { events := preEvents ++ [.print (.withDumps "Parsed: " parsed 2)], exc := none }

/-- A decoding outcome the scripts' result handlers fully cover: either a
decode failure or a JSON object. -/
def isSafeParse : Option Json → Bool
  | none => true
  | some (.obj _) => true
  | _ => false

/-- Whether a decoding outcome is a JSON object whose "success" field is
present and truthy. -/
def isTruthySuccess : Option Json → Bool
  | some (.obj kvs) => truthyOpt (lookupField kvs "success")
  | _ => false

/-! ### Basic lemmas about the embedded Python primitives -/

theorem pyGet_error_eq {j : Json} {k : String} {e : PyExc}
    (h : pyGet j k = .error e) : e = .attributeError := by
  cases j <;> simp_all [pyGet]

theorem callOps_append (a b : List Event) :
    callOps (a ++ b) = callOps a ++ callOps b := by
  simp [callOps, List.filterMap_append]

theorem payloads_append (a b : List Event) :
    payloads (a ++ b) = payloads a ++ payloads b := by
  simp [payloads, List.filterMap_append]

theorem callRecords_append (a b : List Event) :
    callRecords (a ++ b) = callRecords a ++ callRecords b := by
  simp [callRecords, List.filterMap_append]

/-! ### Lemmas about the response handlers of the four plain scripts -/

theorem simpleTestHandle_parse_fail {loads : String → Option Json} {r : String}
    (h : loads r = none) :
    simpleTestHandle loads r =
      ([.error (.lit ("Failed to parse response: " ++ r))], none) := by
  simp [simpleTestHandle, h]

theorem simpleTestHandle_obj {loads : String → Option Json} {r : String}
    {kvs : List (String × Json)} (h : loads r = some (.obj kvs)) :
    simpleTestHandle loads r =
      (if truthyOpt (lookupField kvs "success") then
        ([.info (.withVal "Cube created successfully! Group ID: " (lookupField kvs "result"))],
          none)
      else
        ([.error (.withVal "Failed to create cube: " (lookupField kvs "error"))], none)) := by
  simp [simpleTestHandle, h, pyGet]

theorem simpleTestHandle_exc {loads : String → Option Json} {r : String} {e : PyExc}
    (h : (simpleTestHandle loads r).2 = some e) : e = .attributeError := by
  unfold simpleTestHandle at h
  cases hl : loads r <;> rw [hl] at h
  case none => simp at h
  case some result =>
    cases result <;> simp [pyGet] at h <;> try simp_all
    split at h <;> simp at h

theorem simpleTestHandle_no_calls (loads : String → Option Json) (r : String) :
    callOps (simpleTestHandle loads r).1 = [] ∧
      payloads (simpleTestHandle loads r).1 = [] := by
  unfold simpleTestHandle
  cases hl : loads r with
  | none => simp [callOps, payloads]
  | some result =>
      cases result <;>
        simp [pyGet, callOps, payloads] <;>
        split <;> simp

theorem artsAndCraftsHandle_parse_fail {loads : String → Option Json} {r : String}
    (h : loads r = none) :
    artsAndCraftsHandle loads r =
      ([.error (.lit ("Failed to parse response: " ++ r))], none) := by
  simp [artsAndCraftsHandle, h]

theorem artsAndCraftsHandle_obj {loads : String → Option Json} {r : String}
    {kvs : List (String × Json)} (h : loads r = some (.obj kvs)) :
    artsAndCraftsHandle loads r =
      (if truthyOpt (lookupField kvs "success") then
        ([.info (.withVal "Cabinet created successfully! Result: " (lookupField kvs "result"))],
          none)
      else
        ([.error (.withVal "Failed to create cabinet: " (lookupField kvs "error"))], none)) := by
  simp [artsAndCraftsHandle, h, pyGet]

theorem artsAndCraftsHandle_exc {loads : String → Option Json} {r : String} {e : PyExc}
    (h : (artsAndCraftsHandle loads r).2 = some e) : e = .attributeError := by
  unfold artsAndCraftsHandle at h
  cases hl : loads r <;> rw [hl] at h
  case none => simp at h
  case some result =>
    cases result <;> simp [pyGet] at h <;> try simp_all
    split at h <;> simp at h

theorem artsAndCraftsHandle_no_calls (loads : String → Option Json) (r : String) :
    callOps (artsAndCraftsHandle loads r).1 = [] ∧
      payloads (artsAndCraftsHandle loads r).1 = [] := by
  unfold artsAndCraftsHandle
  cases hl : loads r with
  | none => simp [callOps, payloads]
  | some result =>
      cases result <;>
        simp [pyGet, callOps, payloads] <;>
        split <;> simp

/-! ### Lemmas about `ruby_tester.test_ruby_code` and its loop -/

theorem testRubyCode_parse_fail {loads : String → Option Json} {r : String}
    (tn c : String) (h : loads r = none) :
    testRubyCode loads tn c r =
      ([.info (.lit ("Testing: " ++ tn)), .call "eval_ruby" none c,
        .error (.lit ("Failed to parse response: " ++ r))], .ok false) := by
  simp [testRubyCode, h]

theorem testRubyCode_obj {loads : String → Option Json} {r : String}
    {kvs : List (String × Json)} (tn c : String) (h : loads r = some (.obj kvs)) :
    testRubyCode loads tn c r =
      (if truthyOpt (lookupField kvs "success") then
        ([.info (.lit ("Testing: " ++ tn)), .call "eval_ruby" none c,
          .info (.withVal "✅ SUCCESS: " (lookupField kvs "result"))], .ok true)
      else
        ([.info (.lit ("Testing: " ++ tn)), .call "eval_ruby" none c,
          .error (.withVal "❌ ERROR: " (lookupField kvs "error"))], .ok false)) := by
  simp [testRubyCode, h, pyGet]

theorem testRubyCode_exc {loads : String → Option Json} {tn c r : String} {e : PyExc}
    (h : (testRubyCode loads tn c r).2 = .error e) : e = .attributeError := by
  unfold testRubyCode at h
  cases hl : loads r <;> rw [hl] at h
  case none => simp at h
  case some result =>
    cases result <;> simp [pyGet] at h <;> try simp_all
    split at h <;> simp at h

theorem testRubyCode_calls (loads : String → Option Json) (tn c r : String) :
    callOps (testRubyCode loads tn c r).1 = ["eval_ruby"] ∧
      payloads (testRubyCode loads tn c r).1 = [c] := by
  unfold testRubyCode
  cases hl : loads r with
  | none => simp [callOps, payloads]
  | some result =>
      cases result <;>
        simp [pyGet, callOps, payloads] <;>
        split <;> simp

theorem testRubyCode_safe {loads : String → Option Json} {r : String}
    (tn c : String) (h : isSafeParse (loads r) = true) :
    (testRubyCode loads tn c r).2 = .ok (isTruthySuccess (loads r)) := by
  unfold testRubyCode
  cases hl : loads r <;> rw [hl] at h
  case none => simp [isTruthySuccess, hl]
  case some result =>
    cases result <;> simp [isSafeParse] at h
    simp [pyGet, isTruthySuccess, hl]
    split <;> simp_all

theorem rubyTesterLoop_exc {loads : String → Option Json} {responses : Nat → String} :
    ∀ (tcs : List (String × String)) (i count : Nat) (e : PyExc),
      (rubyTesterLoop loads responses tcs i count).2 = .error e → e = .attributeError := by
  intro tcs
  induction tcs with
  | nil => intro i count e h; simp [rubyTesterLoop] at h
  | cons tc rest ih =>
      intro i count e h
      unfold rubyTesterLoop at h
      cases htc : testRubyCode loads tc.1 tc.2 (responses i) with
      | mk evs res =>
          rw [htc] at h
          cases res with
          | error e2 =>
              simp at h
              have := testRubyCode_exc (e := e2) (by rw [htc])
              simp_all
          | ok passed => simp at h; exact ih _ _ _ h

theorem rubyTesterLoop_callOps {loads : String → Option Json} {responses : Nat → String} :
    ∀ (tcs : List (String × String)) (i count : Nat),
      (callOps (rubyTesterLoop loads responses tcs i count).1).all
        (fun op => op == "eval_ruby") = true := by
  intro tcs
  induction tcs with
  | nil => intro i count; simp [rubyTesterLoop, callOps]
  | cons tc rest ih =>
      intro i count
      unfold rubyTesterLoop
      cases htc : testRubyCode loads tc.1 tc.2 (responses i) with
      | mk evs res =>
          have hc : callOps evs = ["eval_ruby"] := by
            have := (testRubyCode_calls loads tc.1 tc.2 (responses i)).1
            rw [htc] at this; exact this
          cases res with
          | error e2 => simp [hc]
          | ok passed =>
              rw [callOps_append, callOps_append, hc]
              simp only [List.all_append, ih]
              simp [callOps]

theorem rubyTesterLoop_payloads_take {loads : String → Option Json}
    {responses : Nat → String} :
    ∀ (tcs : List (String × String)) (i count : Nat),
      ∃ n, payloads (rubyTesterLoop loads responses tcs i count).1 =
        (tcs.map Prod.snd).take n := by
  intro tcs
  induction tcs with
  | nil => intro i count; exact ⟨0, by simp [rubyTesterLoop, payloads]⟩
  | cons tc rest ih =>
      intro i count
      unfold rubyTesterLoop
      cases htc : testRubyCode loads tc.1 tc.2 (responses i) with
      | mk evs res =>
          have hp : payloads evs = [tc.2] := by
            have := (testRubyCode_calls loads tc.1 tc.2 (responses i)).2
            rw [htc] at this; exact this
          cases res with
          | error e2 => exact ⟨1, by simp [hp]⟩
          | ok passed =>
              obtain ⟨n, hn⟩ := ih (i + 1) (if passed then count + 1 else count)
              refine ⟨n + 1, ?_⟩
              rw [payloads_append, payloads_append, hp, hn]
              simp [payloads]

theorem rubyTesterLoop_safe {loads : String → Option Json} {responses : Nat → String}
    (h : ∀ j, isSafeParse (loads (responses j)) = true) :
    ∀ (tcs : List (String × String)) (i count : Nat),
      (rubyTesterLoop loads responses tcs i count).2 =
        .ok (count + ((List.range' i tcs.length).filter
          (fun j => isTruthySuccess (loads (responses j)))).length) ∧
      payloads (rubyTesterLoop loads responses tcs i count).1 = tcs.map Prod.snd := by
  intro tcs
  induction tcs with
  | nil => intro i count; simp [rubyTesterLoop, payloads]
  | cons tc rest ih =>
      intro i count
      unfold rubyTesterLoop
      cases htc : testRubyCode loads tc.1 tc.2 (responses i) with
      | mk evs res =>
          have hp : payloads evs = [tc.2] := by
            have := (testRubyCode_calls loads tc.1 tc.2 (responses i)).2
            rw [htc] at this; exact this
          have hres : res = .ok (isTruthySuccess (loads (responses i))) := by
            have := @testRubyCode_safe loads (responses i) tc.1 tc.2 (h i)
            rw [htc] at this; exact this
          subst hres
          obtain ⟨ih1, ih2⟩ := ih (i + 1)
            (if isTruthySuccess (loads (responses i)) then count + 1 else count)
          constructor
          · simp only [ih1, List.length_cons, List.range'_succ, List.filter_cons]
            cases hts : isTruthySuccess (loads (responses i)) <;> simp [hts] <;> omega
          · rw [payloads_append, payloads_append, hp, ih2]
            simp [payloads]

/-! ### Lemmas about the `simple_ruby_eval` loop -/

theorem simpleRubyEvalStep_parse_fail {loads : String → Option Json} {r : String}
    (exName c : String) (h : loads r = none) :
    simpleRubyEvalStep loads exName c r =
      ([.info (.lit ("Running example: " ++ exName)), .call "eval_ruby" none c,
        .error (.lit ("Failed to parse response: " ++ r)),
        .info (.lit (dashLine 40))], none) := by
  simp [simpleRubyEvalStep, h]

theorem simpleRubyEvalStep_obj {loads : String → Option Json} {r : String}
    {kvs : List (String × Json)} (exName c : String) (h : loads r = some (.obj kvs)) :
    simpleRubyEvalStep loads exName c r =
      (if truthyOpt (lookupField kvs "success") then
        ([.info (.lit ("Running example: " ++ exName)), .call "eval_ruby" none c,
          .info (.withVal "Result: " (lookupField kvs "result")),
          .info (.lit (dashLine 40))], none)
      else
        ([.info (.lit ("Running example: " ++ exName)), .call "eval_ruby" none c,
          .error (.withVal "Error: " (lookupField kvs "error")),
          .info (.lit (dashLine 40))], none)) := by
  simp [simpleRubyEvalStep, h, pyGet]

theorem simpleRubyEvalStep_exc {loads : String → Option Json} {exName c r : String}
    {e : PyExc} (h : (simpleRubyEvalStep loads exName c r).2 = some e) :
    e = .attributeError := by
  unfold simpleRubyEvalStep at h
  cases hl : loads r <;> rw [hl] at h
  case none => simp at h
  case some result =>
    cases result <;> simp [pyGet] at h <;> try simp_all
    split at h <;> simp at h

theorem simpleRubyEvalStep_calls (loads : String → Option Json) (exName c r : String) :
    callOps (simpleRubyEvalStep loads exName c r).1 = ["eval_ruby"] ∧
      payloads (simpleRubyEvalStep loads exName c r).1 = [c] := by
  unfold simpleRubyEvalStep
  cases hl : loads r with
  | none => simp [callOps, payloads]
  | some result =>
      cases result <;>
        simp [pyGet, callOps, payloads] <;>
        split <;> simp

theorem simpleRubyEvalStep_safe {loads : String → Option Json} {r : String}
    (exName c : String) (h : isSafeParse (loads r) = true) :
    (simpleRubyEvalStep loads exName c r).2 = none := by
  unfold simpleRubyEvalStep
  cases hl : loads r with
  | none => simp
  | some result =>
      rw [hl] at h
      cases result <;> simp [isSafeParse] at h
      simp [pyGet]
      split <;> simp

theorem simpleRubyEvalLoop_exc {loads : String → Option Json} {responses : Nat → String} :
    ∀ (exs : List (String × String)) (i : Nat) (e : PyExc),
      (simpleRubyEvalLoop loads responses exs i).2 = some e → e = .attributeError := by
  intro exs
  induction exs with
  | nil => intro i e h; simp [simpleRubyEvalLoop] at h
  | cons ex rest ih =>
      intro i e h
      unfold simpleRubyEvalLoop at h
      cases hs : simpleRubyEvalStep loads ex.1 ex.2 (responses i) with
      | mk evs res =>
          rw [hs] at h
          cases res with
          | some e2 =>
              simp at h
              have := simpleRubyEvalStep_exc (e := e2) (by rw [hs])
              simp_all
          | none => simp at h; exact ih _ _ h

theorem simpleRubyEvalLoop_callOps {loads : String → Option Json}
    {responses : Nat → String} :
    ∀ (exs : List (String × String)) (i : Nat),
      (callOps (simpleRubyEvalLoop loads responses exs i).1).all
        (fun op => op == "eval_ruby") = true := by
  intro exs
  induction exs with
  | nil => intro i; simp [simpleRubyEvalLoop, callOps]
  | cons ex rest ih =>
      intro i
      unfold simpleRubyEvalLoop
      cases hs : simpleRubyEvalStep loads ex.1 ex.2 (responses i) with
      | mk evs res =>
          have hc : callOps evs = ["eval_ruby"] := by
            have := (simpleRubyEvalStep_calls loads ex.1 ex.2 (responses i)).1
            rw [hs] at this; exact this
          cases res with
          | some e2 => simp [hc]
          | none =>
              rw [callOps_append, hc]
              simp only [List.all_append, ih]
              simp

theorem simpleRubyEvalLoop_payloads_take {loads : String → Option Json}
    {responses : Nat → String} :
    ∀ (exs : List (String × String)) (i : Nat),
      ∃ n, payloads (simpleRubyEvalLoop loads responses exs i).1 =
        (exs.map Prod.snd).take n := by
  intro exs
  induction exs with
  | nil => intro i; exact ⟨0, by simp [simpleRubyEvalLoop, payloads]⟩
  | cons ex rest ih =>
      intro i
      unfold simpleRubyEvalLoop
      cases hs : simpleRubyEvalStep loads ex.1 ex.2 (responses i) with
      | mk evs res =>
          have hp : payloads evs = [ex.2] := by
            have := (simpleRubyEvalStep_calls loads ex.1 ex.2 (responses i)).2
            rw [hs] at this; exact this
          cases res with
          | some e2 => exact ⟨1, by simp [hp]⟩
          | none =>
              obtain ⟨n, hn⟩ := ih (i + 1)
              refine ⟨n + 1, ?_⟩
              rw [payloads_append, hp, hn]
              simp

theorem simpleRubyEvalLoop_safe {loads : String → Option Json} {responses : Nat → String}
    (h : ∀ j, isSafeParse (loads (responses j)) = true) :
    ∀ (exs : List (String × String)) (i : Nat),
      (simpleRubyEvalLoop loads responses exs i).2 = none ∧
      payloads (simpleRubyEvalLoop loads responses exs i).1 = exs.map Prod.snd := by
  intro exs
  induction exs with
  | nil => intro i; simp [simpleRubyEvalLoop, payloads]
  | cons ex rest ih =>
      intro i
      unfold simpleRubyEvalLoop
      cases hs : simpleRubyEvalStep loads ex.1 ex.2 (responses i) with
      | mk evs res =>
          have hp : payloads evs = [ex.2] := by
            have := (simpleRubyEvalStep_calls loads ex.1 ex.2 (responses i)).2
            rw [hs] at this; exact this
          have hres : res = none := by
            have := @simpleRubyEvalStep_safe loads (responses i) ex.1 ex.2 (h i)
            rw [hs] at this; exact this
          subst hres
          obtain ⟨ih1, ih2⟩ := ih (i + 1)
          refine ⟨by simp [ih1], ?_⟩
          rw [payloads_append, hp, ih2]
          simp

/-! ### Structural lemmas for call extraction -/

@[simp] theorem callOps_nil : callOps [] = [] := rfl

@[simp] theorem callOps_cons_info (m : Msg) (l : List Event) :
    callOps (.info m :: l) = callOps l := rfl

@[simp] theorem callOps_cons_error (m : Msg) (l : List Event) :
    callOps (.error m :: l) = callOps l := rfl

@[simp] theorem callOps_cons_print (m : Msg) (l : List Event) :
    callOps (.print m :: l) = callOps l := rfl

@[simp] theorem callOps_cons_call (op : String) (rid : Option Nat) (c : String)
    (l : List Event) : callOps (.call op rid c :: l) = op :: callOps l := rfl

@[simp] theorem payloads_nil : payloads [] = [] := rfl

@[simp] theorem payloads_cons_info (m : Msg) (l : List Event) :
    payloads (.info m :: l) = payloads l := rfl

@[simp] theorem payloads_cons_error (m : Msg) (l : List Event) :
    payloads (.error m :: l) = payloads l := rfl

@[simp] theorem payloads_cons_print (m : Msg) (l : List Event) :
    payloads (.print m :: l) = payloads l := rfl

@[simp] theorem payloads_cons_call (op : String) (rid : Option Nat) (c : String)
    (l : List Event) : payloads (.call op rid c :: l) = c :: payloads l := rfl

@[simp] theorem callOps_map_info {A : Type} (f : A → Msg) (l : List A) :
    callOps (l.map (fun a => Event.info (f a))) = [] := by
  induction l with
  | nil => rfl
  | cons a rest ih => simpa using ih

@[simp] theorem payloads_map_info {A : Type} (f : A → Msg) (l : List A) :
    payloads (l.map (fun a => Event.info (f a))) = [] := by
  induction l with
  | nil => rfl
  | cons a rest ih => simpa using ih

/-! ### Lemmas about the `behavior_tester` display code -/

theorem displayProp_no_calls (prop : String) (propResult : Json) :
    callOps (displayProp prop propResult).1 = [] ∧
      payloads (displayProp prop propResult).1 = [] := by
  unfold displayProp
  cases propResult <;> simp [pyGet, pyGetDefault] <;>
    (repeat' split) <;> simp

theorem displayProps_no_calls :
    ∀ (items : List (String × Json)),
      callOps (displayProps items).1 = [] ∧ payloads (displayProps items).1 = [] := by
  intro items
  induction items with
  | nil => simp [displayProps]
  | cons it rest ih =>
      obtain ⟨p, pr⟩ := it
      unfold displayProps
      cases hd : displayProp p pr with
      | mk evs res =>
          have h1 := displayProp_no_calls p pr
          rw [hd] at h1
          cases res with
          | some e => exact h1
          | none =>
              refine ⟨?_, ?_⟩
              · rw [callOps_append, h1.1, ih.1]; rfl
              · rw [payloads_append, h1.2, ih.2]; rfl

theorem displayBehavior_no_calls (d : Json) :
    callOps (displayBehavior d).1 = [] ∧ payloads (displayBehavior d).1 = [] := by
  unfold displayBehavior
  cases h1 : pyIndex d "all_methods" with
  | error e => simp [h1]
  | ok methods =>
    cases h2 : pyIter methods with
    | error e => simp [h1, h2]
    | ok ms =>
      cases h3 : pyIndex d "property_results" with
      | error e => simp [h1, h2, h3, callOps_append, payloads_append]
      | ok pr =>
        cases h4 : pyItems pr with
        | error e => simp [h1, h2, h3, h4, callOps_append, payloads_append]
        | ok items =>
          have h5 := displayProps_no_calls items
          simp [h1, h2, h3, h4, callOps_append, payloads_append, h5.1, h5.2]

theorem behaviorTry_no_calls (loads : String → Option Json) (r : String) :
    callOps (behaviorTry loads r).1 = [] ∧ payloads (behaviorTry loads r).1 = [] := by
  unfold behaviorTry
  cases hl : loads r with
  | none => simp
  | some result =>
      cases result <;> simp [pyGet]
      split
      · split
        · simp
        · exact displayBehavior_no_calls _
      · simp


/-! ### Exception lemmas for the five example mains -/

theorem simpleTestMain_exc_ne_jde (connected : Bool) (loads : String → Option Json)
    (responses : Nat → String) :
    (simpleTestMain connected loads responses).exc ≠ some .jsonDecodeError := by
  unfold simpleTestMain
  cases connected
  · simp
  · simp only [Bool.not_true]
    cases hh : simpleTestHandle loads (responses 0) with
    | mk evs res =>
        cases res with
        | none => simp
        | some e =>
            have he := simpleTestHandle_exc (e := e) (by rw [hh])
            subst he; simp

theorem artsAndCraftsMain_exc_ne_jde (connected : Bool) (loads : String → Option Json)
    (responses : Nat → String) :
    (artsAndCraftsMain connected loads responses).exc ≠ some .jsonDecodeError := by
  unfold artsAndCraftsMain
  cases connected
  · simp
  · simp only [Bool.not_true]
    cases hh : artsAndCraftsHandle loads (responses 0) with
    | mk evs res =>
        cases res with
        | none => simp
        | some e =>
            have he := artsAndCraftsHandle_exc (e := e) (by rw [hh])
            subst he; simp

theorem rubyTesterMain_exc_ne_jde (connected : Bool) (loads : String → Option Json)
    (responses : Nat → String) :
    (rubyTesterMain connected loads responses).exc ≠ some .jsonDecodeError := by
  unfold rubyTesterMain
  cases connected
  · simp
  · simp only [Bool.not_true]
    cases hh : rubyTesterLoop loads responses TEST_CASES 0 0 with
    | mk evs res =>
        cases res with
        | ok n => simp
        | error e =>
            have he := rubyTesterLoop_exc TEST_CASES 0 0 e (by rw [hh])
            subst he; simp

theorem simpleRubyEvalMain_exc_ne_jde (connected : Bool) (loads : String → Option Json)
    (responses : Nat → String) :
    (simpleRubyEvalMain connected loads responses).exc ≠ some .jsonDecodeError := by
  unfold simpleRubyEvalMain
  cases connected
  · simp
  · simp only [Bool.not_true]
    cases hh : simpleRubyEvalLoop loads responses EXAMPLES 0 with
    | mk evs res =>
        cases res with
        | none => simp
        | some e =>
            have he := simpleRubyEvalLoop_exc EXAMPLES 0 e (by rw [hh])
            subst he; simp

theorem behaviorTesterMain_exc_ne_jde (connected : Bool) (loads : String → Option Json)
    (responses : Nat → String) :
    (behaviorTesterMain connected loads responses).exc ≠ some .jsonDecodeError := by
  unfold behaviorTesterMain
  cases connected
  · simp
  · simp only [Bool.not_true]
    cases hb : behaviorTry loads (responses 0) with
    | mk evs res =>
        cases res with
        | none => simp
        | some e => cases e <;> simp

@[simp] theorem callRecords_nil : callRecords [] = [] := rfl

@[simp] theorem callRecords_cons_info (m : Msg) (l : List Event) :
    callRecords (.info m :: l) = callRecords l := rfl

@[simp] theorem callRecords_cons_error (m : Msg) (l : List Event) :
    callRecords (.error m :: l) = callRecords l := rfl

@[simp] theorem callRecords_cons_print (m : Msg) (l : List Event) :
    callRecords (.print m :: l) = callRecords l := rfl

@[simp] theorem callRecords_cons_call (op : String) (rid : Option Nat) (c : String)
    (l : List Event) :
    callRecords (.call op rid c :: l) = (op, rid, c) :: callRecords l := rfl

/-! ### All remote calls of every script use the eval_ruby entry point -/

theorem simpleTestMain_callOps (connected : Bool) (loads : String → Option Json)
    (responses : Nat → String) :
    (callOps (simpleTestMain connected loads responses).events).all
      (fun op => op == "eval_ruby") = true := by
  unfold simpleTestMain
  cases connected
  · simp
  · simp only [Bool.not_true]
    cases hh : simpleTestHandle loads (responses 0) with
    | mk evs res =>
        have hc := (simpleTestHandle_no_calls loads (responses 0)).1
        rw [hh] at hc
        cases res <;> simp [callOps_append, hc]

theorem artsAndCraftsMain_callOps (connected : Bool) (loads : String → Option Json)
    (responses : Nat → String) :
    (callOps (artsAndCraftsMain connected loads responses).events).all
      (fun op => op == "eval_ruby") = true := by
  unfold artsAndCraftsMain
  cases connected
  · simp
  · simp only [Bool.not_true]
    cases hh : artsAndCraftsHandle loads (responses 0) with
    | mk evs res =>
        have hc := (artsAndCraftsHandle_no_calls loads (responses 0)).1
        rw [hh] at hc
        cases res <;> simp [callOps_append, hc]

theorem rubyTesterMain_callOps (connected : Bool) (loads : String → Option Json)
    (responses : Nat → String) :
    (callOps (rubyTesterMain connected loads responses).events).all
      (fun op => op == "eval_ruby") = true := by
  unfold rubyTesterMain
  cases connected
  · simp
  · simp only [Bool.not_true]
    cases hh : rubyTesterLoop loads responses TEST_CASES 0 0 with
    | mk evs res =>
        have hc := @rubyTesterLoop_callOps loads responses TEST_CASES 0 0
        rw [hh] at hc
        cases res <;> simp [callOps_append, List.all_append, hc]

theorem simpleRubyEvalMain_callOps (connected : Bool) (loads : String → Option Json)
    (responses : Nat → String) :
    (callOps (simpleRubyEvalMain connected loads responses).events).all
      (fun op => op == "eval_ruby") = true := by
  unfold simpleRubyEvalMain
  cases connected
  · simp
  · simp only [Bool.not_true]
    cases hh : simpleRubyEvalLoop loads responses EXAMPLES 0 with
    | mk evs res =>
        have hc := @simpleRubyEvalLoop_callOps loads responses EXAMPLES 0
        rw [hh] at hc
        cases res <;> simp [callOps_append, List.all_append, hc]

theorem behaviorTesterMain_callOps (connected : Bool) (loads : String → Option Json)
    (responses : Nat → String) :
    (callOps (behaviorTesterMain connected loads responses).events).all
      (fun op => op == "eval_ruby") = true := by
  unfold behaviorTesterMain
  cases connected
  · simp
  · simp only [Bool.not_true]
    cases hb : behaviorTry loads (responses 0) with
    | mk evs res =>
        have hc := (behaviorTry_no_calls loads (responses 0)).1
        rw [hb] at hc
        cases res with
        | none => simp [callOps_append, hc]
        | some e => cases e <;> simp [callOps_append, hc]

theorem smokeTest_callOps (loads : String → Option Json) (evalResult : String) :
    (callOps (smokeTest loads evalResult).events).all
      (fun op => op == "eval_ruby") = true := by
  unfold smokeTest
  cases loads evalResult <;> simp

/-! ### A loop that finishes normally has sent every payload -/

theorem simpleRubyEvalLoop_complete {loads : String → Option Json}
    {responses : Nat → String} :
    ∀ (exs : List (String × String)) (i : Nat),
      (simpleRubyEvalLoop loads responses exs i).2 = none →
      payloads (simpleRubyEvalLoop loads responses exs i).1 = exs.map Prod.snd := by
  intro exs
  induction exs with
  | nil => intro i _; simp [simpleRubyEvalLoop]
  | cons ex rest ih =>
      intro i hnone
      unfold simpleRubyEvalLoop at hnone ⊢
      cases hs : simpleRubyEvalStep loads ex.1 ex.2 (responses i) with
      | mk evs res =>
          rw [hs] at hnone
          cases res with
          | some e => simp at hnone
          | none =>
              have hp : payloads evs = [ex.2] := by
                have := (simpleRubyEvalStep_calls loads ex.1 ex.2 (responses i)).2
                rw [hs] at this; exact this
              simp only at hnone
              rw [payloads_append, hp, ih (i + 1) hnone]
              simp

theorem rubyTesterLoop_complete {loads : String → Option Json}
    {responses : Nat → String} :
    ∀ (tcs : List (String × String)) (i count n : Nat),
      (rubyTesterLoop loads responses tcs i count).2 = .ok n →
      payloads (rubyTesterLoop loads responses tcs i count).1 = tcs.map Prod.snd := by
  intro tcs
  induction tcs with
  | nil => intro i count n _; simp [rubyTesterLoop]
  | cons tc rest ih =>
      intro i count n hok
      unfold rubyTesterLoop at hok ⊢
      cases htc : testRubyCode loads tc.1 tc.2 (responses i) with
      | mk evs res =>
          rw [htc] at hok
          cases res with
          | error e => simp at hok
          | ok passed =>
              have hp : payloads evs = [tc.2] := by
                have := (testRubyCode_calls loads tc.1 tc.2 (responses i)).2
                rw [htc] at this; exact this
              simp only at hok
              rw [payloads_append, payloads_append, hp,
                ih (i + 1) (if passed then count + 1 else count) n hok]
              simp

/-! ## Claim theorems -/

/-- C4: each of the four example mains that use the MCP `Client`
(simple_test, ruby_tester, simple_ruby_eval, arts_and_crafts_cabinet)
never invokes eval_ruby while the client is not connected: when
`client.is_connected` is false, main logs the connection error and
returns having made zero remote-evaluation calls. -/
theorem c4_disconnected_no_calls (loads : String → Option Json)
    (responses : Nat → String) :
    (simpleTestMain false loads responses =
        { events := [.error (.lit connectFailMsg)], exc := none } ∧
      payloads (simpleTestMain false loads responses).events = []) ∧
    (rubyTesterMain false loads responses =
        { events := [.error (.lit connectFailMsg)], exc := none } ∧
      payloads (rubyTesterMain false loads responses).events = []) ∧
    (simpleRubyEvalMain false loads responses =
        { events := [.error (.lit connectFailMsg)], exc := none } ∧
      payloads (simpleRubyEvalMain false loads responses).events = []) ∧
    (artsAndCraftsMain false loads responses =
        { events := [.error (.lit connectFailMsg)], exc := none } ∧
      payloads (artsAndCraftsMain false loads responses).events = []) :=
  ⟨⟨rfl, rfl⟩, ⟨rfl, rfl⟩, ⟨rfl, rfl⟩, ⟨rfl, rfl⟩⟩

/-- C6: in every source file, every remote-evaluation request goes through
the single entry point eval_ruby (`client.eval_ruby` in the five example
scripts, `sketchup_mcp.server.eval_ruby` in the smoke test); no script
invokes any other remote operation on the server. -/
theorem c6_eval_ruby_only (connected : Bool) (loads : String → Option Json)
    (responses : Nat → String) (evalResult : String) :
    ((callOps (simpleTestMain connected loads responses).events).all
      (fun op => op == "eval_ruby") = true) ∧
    ((callOps (rubyTesterMain connected loads responses).events).all
      (fun op => op == "eval_ruby") = true) ∧
    ((callOps (simpleRubyEvalMain connected loads responses).events).all
      (fun op => op == "eval_ruby") = true) ∧
    ((callOps (behaviorTesterMain connected loads responses).events).all
      (fun op => op == "eval_ruby") = true) ∧
    ((callOps (artsAndCraftsMain connected loads responses).events).all
      (fun op => op == "eval_ruby") = true) ∧
    ((callOps (smokeTest loads evalResult).events).all
      (fun op => op == "eval_ruby") = true) :=
  ⟨simpleTestMain_callOps connected loads responses,
   rubyTesterMain_callOps connected loads responses,
   simpleRubyEvalMain_callOps connected loads responses,
   behaviorTesterMain_callOps connected loads responses,
   artsAndCraftsMain_callOps connected loads responses,
   smokeTest_callOps loads evalResult⟩

/-- C1: for every response string that parses as a JSON object, each of
the cited scripts (simple_test, ruby_tester, arts_and_crafts_cabinet)
treats the call as successful if and only if the object's "success" field
is present and truthy: on success it logs the object's "result" field at
info level, and otherwise it logs the object's "error" field at error
level. -/
theorem c1_success_iff_truthy (loads : String → Option Json) (response : String)
    (kvs : List (String × Json)) (tn c : String)
    (h : loads response = some (.obj kvs)) :
    simpleTestHandle loads response =
      (if truthyOpt (lookupField kvs "success") then
        ([.info (.withVal "Cube created successfully! Group ID: "
            (lookupField kvs "result"))], none)
      else
        ([.error (.withVal "Failed to create cube: " (lookupField kvs "error"))], none)) ∧
    testRubyCode loads tn c response =
      (if truthyOpt (lookupField kvs "success") then
        ([.info (.lit ("Testing: " ++ tn)), .call "eval_ruby" none c,
          .info (.withVal "✅ SUCCESS: " (lookupField kvs "result"))], .ok true)
      else
        ([.info (.lit ("Testing: " ++ tn)), .call "eval_ruby" none c,
          .error (.withVal "❌ ERROR: " (lookupField kvs "error"))], .ok false)) ∧
    artsAndCraftsHandle loads response =
      (if truthyOpt (lookupField kvs "success") then
        ([.info (.withVal "Cabinet created successfully! Result: "
            (lookupField kvs "result"))], none)
      else
        ([.error (.withVal "Failed to create cabinet: "
            (lookupField kvs "error"))], none)) :=
  ⟨simpleTestHandle_obj h, testRubyCode_obj tn c h, artsAndCraftsHandle_obj h⟩

/-- Witness for C1: a concrete response object with a truthy "success"
field makes simple_test log the "result" field at info level. -/
theorem c1_success_iff_truthy_witness :
    simpleTestHandle
        (fun _ => some (Json.obj [("success", Json.bool true), ("result", Json.str "42")]))
        "resp" =
      ([.info (.withVal "Cube created successfully! Group ID: " (some (Json.str "42")))],
        none) := by
  have h := (c1_success_iff_truthy
    (fun _ => some (Json.obj [("success", Json.bool true), ("result", Json.str "42")]))
    "resp" [("success", Json.bool true), ("result", Json.str "42")] "t" "c" rfl).1
  simpa [truthyOpt, truthy, lookupField] using h

/-- C7: the smoke test calls eval_ruby exactly once, passing a MockContext
whose request_id equals 1 and the canned line-creation script, prints the
raw result string, and — whenever the result parses — prints the parsed
value re-serialized as JSON with indent 2. -/
theorem c7_smoke_test_behaviour (loads : String → Option Json) (evalResult : String) :
    callRecords (smokeTest loads evalResult).events =
      [("eval_ruby", some 1, test_code)] ∧
    ({} : MockContext).request_id = 1 ∧
    (smokeTest loads evalResult).events.take 2 =
      [.call "eval_ruby" (some 1) test_code,
       .print (.lit ("Result: " ++ evalResult))] ∧
    (∀ parsed, loads evalResult = some parsed →
      smokeTest loads evalResult =
        { events := [.call "eval_ruby" (some 1) test_code,
            .print (.lit ("Result: " ++ evalResult)),
            .print (.withDumps "Parsed: " parsed 2)],
          exc := none }) := by
  refine ⟨?_, rfl, ?_, ?_⟩
  · unfold smokeTest; cases loads evalResult <;> simp
  · unfold smokeTest; cases loads evalResult <;> simp
  · intro parsed hp
    unfold smokeTest
    rw [hp]
    rfl

/-- Witness for C7: a concrete parseable result makes the smoke test emit
the call, the raw print and the re-serialized print. -/
theorem c7_smoke_test_witness :
    smokeTest (fun _ => some Json.null) "ok" =
      { events := [.call "eval_ruby" (some 1) test_code,
          .print (.lit ("Result: " ++ "ok")),
          .print (.withDumps "Parsed: " Json.null 2)],
        exc := none } :=
  (c7_smoke_test_behaviour (fun _ => some Json.null) "ok").2.2.2 Json.null rfl

/-- C2: for every response string, each of the five example scripts that
fails to parse the response as JSON logs a 'Failed to parse response'
error and terminates normally; the JSONDecodeError never propagates out
of any of the scripts. -/
theorem c2_parse_failure_handled (connected : Bool) (loads : String → Option Json)
    (responses : Nat → String) :
    ((simpleTestMain connected loads responses).exc ≠ some .jsonDecodeError ∧
      (loads (responses 0) = none →
        simpleTestMain true loads responses =
          { events := [.info (.lit connectOkMsg),
              .info (.lit "Creating a simple cube..."),
              .call "eval_ruby" none CUBE_CODE,
              .error (.lit ("Failed to parse response: " ++ responses 0)),
              .info (.lit "Test completed.")], exc := none })) ∧
    ((simpleRubyEvalMain connected loads responses).exc ≠ some .jsonDecodeError ∧
      ((∀ i, loads (responses i) = none) →
        (simpleRubyEvalMain true loads responses).exc = none ∧
        .error (.lit ("Failed to parse response: " ++ responses 0)) ∈
          (simpleRubyEvalMain true loads responses).events)) ∧
    ((rubyTesterMain connected loads responses).exc ≠ some .jsonDecodeError ∧
      ((∀ i, loads (responses i) = none) →
        (rubyTesterMain true loads responses).exc = none ∧
        .error (.lit ("Failed to parse response: " ++ responses 0)) ∈
          (rubyTesterMain true loads responses).events)) ∧
    ((behaviorTesterMain connected loads responses).exc ≠ some .jsonDecodeError ∧
      (loads (responses 0) = none →
        behaviorTesterMain true loads responses =
          { events := [.info (.lit connectOkMsg),
              .info (.lit "Testing component behavior methods..."),
              .call "eval_ruby" none BEHAVIOR_TEST_CODE,
              .error (.withExc "Failed to parse response: " .jsonDecodeError),
              .info (.lit "Testing completed.")], exc := none })) ∧
    ((artsAndCraftsMain connected loads responses).exc ≠ some .jsonDecodeError ∧
      (loads (responses 0) = none →
        artsAndCraftsMain true loads responses =
          { events := [.info (.lit connectOkMsg),
              .info (.lit "Creating arts and crafts cabinet..."),
              .call "eval_ruby" none CABINET_RUBY_CODE,
              .error (.lit ("Failed to parse response: " ++ responses 0)),
              .info (.lit "Example completed.")], exc := none })) := by
  refine ⟨⟨simpleTestMain_exc_ne_jde _ _ _, ?_⟩,
    ⟨simpleRubyEvalMain_exc_ne_jde _ _ _, ?_⟩,
    ⟨rubyTesterMain_exc_ne_jde _ _ _, ?_⟩,
    ⟨behaviorTesterMain_exc_ne_jde _ _ _, ?_⟩,
    ⟨artsAndCraftsMain_exc_ne_jde _ _ _, ?_⟩⟩
  · intro h
    simp [simpleTestMain, simpleTestHandle_parse_fail h]
  · intro h
    have hstep : ∀ en c i, simpleRubyEvalStep loads en c (responses i) =
        ([.info (.lit ("Running example: " ++ en)), .call "eval_ruby" none c,
          .error (.lit ("Failed to parse response: " ++ responses i)),
          .info (.lit (dashLine 40))], none) :=
      fun en c i => simpleRubyEvalStep_parse_fail en c (h i)
    constructor
    · simp [simpleRubyEvalMain, simpleRubyEvalLoop, hstep, EXAMPLES]
    · simp [simpleRubyEvalMain, simpleRubyEvalLoop, hstep, EXAMPLES]
  · intro h
    have hstep : ∀ tn c i, testRubyCode loads tn c (responses i) =
        ([.info (.lit ("Testing: " ++ tn)), .call "eval_ruby" none c,
          .error (.lit ("Failed to parse response: " ++ responses i))], .ok false) :=
      fun tn c i => testRubyCode_parse_fail tn c (h i)
    constructor
    · simp [rubyTesterMain, rubyTesterLoop, hstep, TEST_CASES]
    · simp [rubyTesterMain, rubyTesterLoop, hstep, TEST_CASES]
  · intro h
    simp [behaviorTesterMain, behaviorTry, h]
  · intro h
    simp [artsAndCraftsMain, artsAndCraftsHandle_parse_fail h]

/-- Witness for C2: with responses that never parse, simple_test emits the
parse-failure log and finishes, and ruby_tester finishes normally. -/
theorem c2_parse_failure_witness :
    simpleTestMain true (fun _ => none) (fun _ => "bad") =
      { events := [.info (.lit connectOkMsg),
          .info (.lit "Creating a simple cube..."),
          .call "eval_ruby" none CUBE_CODE,
          .error (.lit ("Failed to parse response: " ++ "bad")),
          .info (.lit "Test completed.")], exc := none } ∧
    (rubyTesterMain true (fun _ => none) (fun _ => "bad")).exc = none := by
  constructor
  · exact ((c2_parse_failure_handled true (fun _ => none) (fun _ => "bad")).1).2 rfl
  · exact (((c2_parse_failure_handled true (fun _ => none) (fun _ => "bad")).2.2.1).2
      (fun i => rfl)).1

/-- C3 counterexample: the smoke test performs no error handling around
json.loads, so on an unparseable response the JSONDecodeError escapes its
result-inspection code, contradicting the claim that no file lets an
unhandled exception escape. -/
theorem c3_smoke_test_counterexample :
    (smokeTest (fun _ => none) "not json").exc = some .jsonDecodeError := rfl

/-- C3 amended: the five example scripts inspect and log the decoding
outcome and never let a JSONDecodeError escape, but the smoke test
test_eval_ruby.py parses the response with no handler, so an unparseable
response raises JSONDecodeError out of its result-inspection code. -/
theorem c3_amended_smoke_test_propagates (connected : Bool)
    (loads : String → Option Json) (responses : Nat → String) (evalResult : String) :
    (loads evalResult = none →
      (smokeTest loads evalResult).exc = some .jsonDecodeError) ∧
    (simpleTestMain connected loads responses).exc ≠ some .jsonDecodeError ∧
    (rubyTesterMain connected loads responses).exc ≠ some .jsonDecodeError ∧
    (simpleRubyEvalMain connected loads responses).exc ≠ some .jsonDecodeError ∧
    (behaviorTesterMain connected loads responses).exc ≠ some .jsonDecodeError ∧
    (artsAndCraftsMain connected loads responses).exc ≠ some .jsonDecodeError := by
  refine ⟨?_, simpleTestMain_exc_ne_jde _ _ _, rubyTesterMain_exc_ne_jde _ _ _,
    simpleRubyEvalMain_exc_ne_jde _ _ _, behaviorTesterMain_exc_ne_jde _ _ _,
    artsAndCraftsMain_exc_ne_jde _ _ _⟩
  intro h
  simp [smokeTest, h]

/-- Witness for C3 amended at a concrete unparseable response. -/
theorem c3_amended_witness :
    (smokeTest (fun _ => none) "oops").exc = some .jsonDecodeError ∧
    (simpleTestMain true (fun _ => none) (fun _ => "oops")).exc ≠
      some .jsonDecodeError := by
  have h := c3_amended_smoke_test_propagates true (fun _ => none) (fun _ => "oops") "oops"
  exact ⟨h.1 rfl, h.2.1⟩

/-- Auxiliary: the last element of `l₁ ++ l₂ ++ [a]`. -/
theorem getLast?_append_concat (l₁ l₂ : List Event) (a : Event) :
    (l₁ ++ (l₂ ++ [a])).getLast? = some a := by
  rw [← List.append_assoc, List.getLast?_concat]

/-- C5 counterexample: two runs of simple_ruby_eval with different server
responses send different payload sequences — a response that parses as a
JSON non-object aborts the loop after the first call, so the sequence of
payloads sent is not identical across runs. -/
theorem c5_payloads_differ_counterexample :
    payloads (simpleRubyEvalMain true (fun _ => none) (fun _ => "bad")).events ≠
      payloads (simpleRubyEvalMain true (fun _ => some (Json.num 5)) (fun _ => "5")).events := by
  intro h
  have h1 : (payloads (simpleRubyEvalMain true (fun _ => none)
      (fun _ => "bad")).events).length = 3 := rfl
  rw [h] at h1
  have h2 : (payloads (simpleRubyEvalMain true (fun _ => some (Json.num 5))
      (fun _ => "5")).events).length = 1 := rfl
  rw [h2] at h1
  exact absurd h1 (by decide)

/-- C5 amended: the payload of every eval_ruby call is drawn in order from
the fixed module-level constants. simple_test and arts_and_crafts_cabinet
always send exactly their one constant payload; simple_ruby_eval sends a
prefix of the constant EXAMPLES payload list (the full list whenever main
terminates normally), but an exception raised while handling one response
can cut the sequence short, so two runs need not send identical
sequences. -/
theorem c5_amended_payloads_from_constants (loads : String → Option Json)
    (responses : Nat → String) :
    payloads (simpleTestMain true loads responses).events = [CUBE_CODE] ∧
    payloads (artsAndCraftsMain true loads responses).events = [CABINET_RUBY_CODE] ∧
    (∃ n, payloads (simpleRubyEvalMain true loads responses).events =
      (EXAMPLES.map Prod.snd).take n) ∧
    ((simpleRubyEvalMain true loads responses).exc = none →
      payloads (simpleRubyEvalMain true loads responses).events =
        EXAMPLES.map Prod.snd) := by
  refine ⟨?_, ?_, ?_, ?_⟩
  · unfold simpleTestMain
    simp only [Bool.not_true]
    cases hh : simpleTestHandle loads (responses 0) with
    | mk evs res =>
        have hp := (simpleTestHandle_no_calls loads (responses 0)).2
        rw [hh] at hp
        cases res <;> simp [payloads_append, hp]
  · unfold artsAndCraftsMain
    simp only [Bool.not_true]
    cases hh : artsAndCraftsHandle loads (responses 0) with
    | mk evs res =>
        have hp := (artsAndCraftsHandle_no_calls loads (responses 0)).2
        rw [hh] at hp
        cases res <;> simp [payloads_append, hp]
  · unfold simpleRubyEvalMain
    simp only [Bool.not_true]
    cases hh : simpleRubyEvalLoop loads responses EXAMPLES 0 with
    | mk evs res =>
        obtain ⟨n, hn⟩ := @simpleRubyEvalLoop_payloads_take loads responses EXAMPLES 0
        rw [hh] at hn
        cases res <;> exact ⟨n, by simp [payloads_append, hn]⟩
  · intro hexc
    unfold simpleRubyEvalMain at hexc ⊢
    simp only [Bool.not_true] at hexc ⊢
    cases hh : simpleRubyEvalLoop loads responses EXAMPLES 0 with
    | mk evs res =>
        rw [hh] at hexc
        cases res with
        | some e => simp at hexc
        | none =>
            have hc := simpleRubyEvalLoop_complete EXAMPLES 0 (by rw [hh])
            rw [hh] at hc
            simp [payloads_append, hc]

/-- Witness for C5 amended: with unparseable responses the full constant
payload sequences are sent. -/
theorem c5_amended_witness :
    payloads (simpleTestMain true (fun _ => none) (fun _ => "r")).events = [CUBE_CODE] ∧
    payloads (simpleRubyEvalMain true (fun _ => none) (fun _ => "r")).events =
      EXAMPLES.map Prod.snd := by
  have h := c5_amended_payloads_from_constants (fun _ => none) (fun _ => "r")
  exact ⟨h.1, h.2.2.2 rfl⟩

/-- C8 counterexample: a response that parses as a JSON non-object (here
the number 5) raises an uncaught AttributeError inside test_ruby_code, so
ruby_tester makes only one eval_ruby call and never reaches the summary —
the claim's "six calls ... in every run" fails. -/
theorem c8_crash_counterexample :
    (payloads (rubyTesterMain true (fun _ => some (Json.num 5))
      (fun _ => "5")).events).length = 1 ∧
    (rubyTesterMain true (fun _ => some (Json.num 5)) (fun _ => "5")).exc =
      some .attributeError := ⟨rfl, rfl⟩

/-- C8 amended: when the client is connected and every response either
fails to parse or parses as a JSON object, ruby_tester invokes eval_ruby
exactly once per TEST_CASES entry in list order (six calls), terminates
normally, and its final summary reports success_count out of 6 where
success_count is exactly the number of responses that parsed as JSON
objects with a truthy "success" field; the count never exceeds 6. -/
theorem c8_amended_safe_summary (loads : String → Option Json)
    (responses : Nat → String)
    (h : ∀ j, isSafeParse (loads (responses j)) = true) :
    payloads (rubyTesterMain true loads responses).events = TEST_CASES.map Prod.snd ∧
    (rubyTesterMain true loads responses).exc = none ∧
    (rubyTesterMain true loads responses).events.getLast? =
      some (.info (.lit ("Testing complete: " ++
        toString (((List.range 6).filter
          (fun j => isTruthySuccess (loads (responses j)))).length) ++ "/" ++
        toString TEST_CASES.length ++ " tests passed"))) ∧
    ((List.range 6).filter (fun j => isTruthySuccess (loads (responses j)))).length ≤ 6 := by
  obtain ⟨h1, h2⟩ := rubyTesterLoop_safe h TEST_CASES 0 0
  have hrange : List.range' 0 TEST_CASES.length = List.range 6 := by
    rw [List.range_eq_range' 6]
    rfl
  simp only [hrange, Nat.zero_add] at h1
  unfold rubyTesterMain
  simp only [Bool.not_true]
  cases hh : rubyTesterLoop loads responses TEST_CASES 0 0 with
  | mk evs res =>
      rw [hh] at h1 h2
      simp only at h1 h2
      cases res with
      | error e => simp at h1
      | ok n =>
          have hn : n = ((List.range 6).filter
              (fun j => isTruthySuccess (loads (responses j)))).length := by
            simpa using h1
          subst hn
          refine ⟨?_, rfl, ?_, ?_⟩
          · simp [payloads_append, h2]
          · exact getLast?_append_concat
              [Event.info (Msg.lit connectOkMsg), Event.info (Msg.lit (equalsLine 50))]
              evs _
          · simpa using List.length_filter_le
              (fun j => isTruthySuccess (loads (responses j))) (List.range 6)

/-- Witness for C8 amended: with responses that never parse, all six
payloads are sent and the run finishes normally with a zero count. -/
theorem c8_amended_witness :
    payloads (rubyTesterMain true (fun _ => none) (fun _ => "x")).events =
      TEST_CASES.map Prod.snd ∧
    (rubyTesterMain true (fun _ => none) (fun _ => "x")).exc = none :=
  ⟨(c8_amended_safe_summary (fun _ => none) (fun _ => "x") (fun _ => rfl)).1,
   (c8_amended_safe_summary (fun _ => none) (fun _ => "x") (fun _ => rfl)).2.1⟩

/-- C9 counterexample: a response that parses as a JSON non-object (the
number 5) raises an uncaught AttributeError in the first iteration of
simple_ruby_eval's loop, so only one eval_ruby call is made and the final
'All examples completed.' log is never reached — the claim's "for every
sequence of responses" fails. -/
theorem c9_crash_counterexample :
    (payloads (simpleRubyEvalMain true (fun _ => some (Json.num 5))
      (fun _ => "5")).events).length = 1 ∧
    (simpleRubyEvalMain true (fun _ => some (Json.num 5)) (fun _ => "5")).exc =
      some .attributeError ∧
    (simpleRubyEvalMain true (fun _ => some (Json.num 5)) (fun _ => "5")).events.getLast? ≠
      some (.info (.lit "All examples completed.")) := by
  refine ⟨rfl, rfl, ?_⟩
  intro hcontra
  have hlast : (simpleRubyEvalMain true (fun _ => some (Json.num 5))
      (fun _ => "5")).events.getLast? =
      some (.call "eval_ruby" none example0Code) := rfl
  rw [hlast] at hcontra
  exact Event.noConfusion (Option.some.inj hcontra)

/-- C9 amended: when every response either fails to parse or parses as a
JSON object, a failed response never prevents the remaining examples:
exactly one eval_ruby call is made per EXAMPLES entry in list order, the
script terminates normally and the final 'All examples completed.' log is
reached; a response parsing as a JSON non-object, however, aborts the
loop. -/
theorem c9_amended_safe_all_examples (loads : String → Option Json)
    (responses : Nat → String)
    (h : ∀ j, isSafeParse (loads (responses j)) = true) :
    payloads (simpleRubyEvalMain true loads responses).events =
      EXAMPLES.map Prod.snd ∧
    (simpleRubyEvalMain true loads responses).exc = none ∧
    (simpleRubyEvalMain true loads responses).events.getLast? =
      some (.info (.lit "All examples completed.")) := by
  obtain ⟨h1, h2⟩ := simpleRubyEvalLoop_safe h EXAMPLES 0
  unfold simpleRubyEvalMain
  simp only [Bool.not_true]
  cases hh : simpleRubyEvalLoop loads responses EXAMPLES 0 with
  | mk evs res =>
      rw [hh] at h1 h2
      simp only at h1 h2
      subst h1
      refine ⟨?_, rfl, ?_⟩
      · simp [payloads_append, h2]
      · exact getLast?_append_concat [Event.info (Msg.lit connectOkMsg)] evs _

/-- Witness for C9 amended: with responses that never parse, all three
examples run and the completion log is the last event. -/
theorem c9_amended_witness :
    payloads (simpleRubyEvalMain true (fun _ => none) (fun _ => "y")).events =
      EXAMPLES.map Prod.snd ∧
    (simpleRubyEvalMain true (fun _ => none) (fun _ => "y")).events.getLast? =
      some (.info (.lit "All examples completed.")) :=
  ⟨(c9_amended_safe_all_examples (fun _ => none) (fun _ => "y") (fun _ => rfl)).1,
   (c9_amended_safe_all_examples (fun _ => none) (fun _ => "y") (fun _ => rfl)).2.2⟩

/-- C10: in behavior_tester, when the outer response parses as a JSON
object with a truthy "success" field whose "result" field is a string
that is not valid JSON, the inner json.loads raises JSONDecodeError,
which is caught by the same handler guarding the outer parse: an error is
logged, the trailing 'Testing completed.' log still runs, and no
exception propagates out of the script. -/
theorem c10_inner_parse_guarded (loads : String → Option Json)
    (responses : Nat → String) (kvs : List (String × Json)) (s : String)
    (h0 : loads (responses 0) = some (.obj kvs))
    (h1 : truthyOpt (lookupField kvs "success") = true)
    (h2 : lookupField kvs "result" = some (.str s))
    (h3 : loads s = none) :
    behaviorTesterMain true loads responses =
      { events := [.info (.lit connectOkMsg),
          .info (.lit "Testing component behavior methods..."),
          .call "eval_ruby" none BEHAVIOR_TEST_CODE,
          .error (.withExc "Failed to parse response: " .jsonDecodeError),
          .info (.lit "Testing completed.")],
        exc := none } := by
  have hb : behaviorTry loads (responses 0) = ([], some .jsonDecodeError) := by
    unfold behaviorTry
    rw [h0]
    simp [pyGet, h1, h2, pyJsonLoads, h3]
  unfold behaviorTesterMain
  simp [hb]

/-- Witness for C10 at a concrete outer object whose "result" string is
not valid JSON. -/
theorem c10_inner_parse_witness :
    behaviorTesterMain true
        (fun str => if str = "RESP" then
          some (Json.obj [("success", Json.bool true), ("result", Json.str "INNER")])
        else none)
        (fun _ => "RESP") =
      { events := [.info (.lit connectOkMsg),
          .info (.lit "Testing component behavior methods..."),
          .call "eval_ruby" none BEHAVIOR_TEST_CODE,
          .error (.withExc "Failed to parse response: " .jsonDecodeError),
          .info (.lit "Testing completed.")],
        exc := none } :=
  c10_inner_parse_guarded
    (fun str => if str = "RESP" then
      some (Json.obj [("success", Json.bool true), ("result", Json.str "INNER")])
    else none)
    (fun _ => "RESP")
    [("success", Json.bool true), ("result", Json.str "INNER")]
    "INNER" (by simp) (by simp [lookupField, truthyOpt, truthy])
    (by simp [lookupField]) (by simp)

end SketchupMCP
